import Mathlib

/-!
Verification of the premium/risk-pricing engine of the insurance_system
repository.

The repository has two separately evolved calculator modules:
  * `calculations.py`       — namespace `Calculations` below;
  * `policy_calculator.py`  — namespace `PolicyCalc` below.

Python floats are modelled as exact rationals (`ℚ`); Python's `round(x, 2)`
(round-half-to-even at two decimals) is modelled by `pyRound2`.  Python
dictionaries are modelled as association lists with get-with-default
lookups.  Code paths that would raise an exception are modelled with
`Option` (for `calculations.py`, whose premium function returns values on
all claimed inputs) and `Except String` (for `policy_calculator.py`, whose
premium function raises `ValueError` on non-positive coverage or term).
-/

/-- Round-half-to-even to the nearest integer, the semantics of Python's
`round` applied to an exact (decimal) value. -/
def roundHalfEven (q : ℚ) : ℤ :=
  if q - ⌊q⌋ < 1/2 then ⌊q⌋
  else if 1/2 < q - ⌊q⌋ then ⌊q⌋ + 1
  else if ⌊q⌋ % 2 = 0 then ⌊q⌋ else ⌊q⌋ + 1

/-- Python's `round(x, 2)`: round to two decimal places, ties to even. -/
def pyRound2 (q : ℚ) : ℚ := (roundHalfEven (q * 100) : ℚ) / 100

/-- `PolicyType` from `policy_enums.py`: the enum members LIFE, CAR, HEALTH,
PROPERTY.  The extra constructor `OTHER` stands for any out-of-enum value a
dynamically-typed caller could pass (the spec's "BOAT or equivalent
out-of-enum sentinel"); the calculators only ever use dictionary lookups
with defaults on the policy type, so such values flow through without
error. -/
inductive PolicyType where
  | LIFE
  | CAR
  | HEALTH
  | PROPERTY
  | OTHER (name : String)
deriving DecidableEq, Repr

instance : BEq PolicyType := ⟨fun a b => decide (a = b)⟩

/-- A value stored in a Python risk-factor dictionary: numeric or string. -/
inductive RiskValue where
  | num (q : ℚ)
  | str (s : String)
deriving DecidableEq, Repr

/-- A Python risk-factor dictionary, modelled as an association list. -/
def RiskFactors := List (String × RiskValue)

instance : EmptyCollection RiskFactors := ⟨([] : List (String × RiskValue))⟩

/-- `d.get(k)`: first binding of key `k`, if any. -/
def rfGet (rf : RiskFactors) (k : String) : Option RiskValue :=
  match (List.find? (fun p => p.1 == k) rf) with
  | some p => some p.2
  | none => none

/-- `float(d.get(k, default))` where the default is numeric.  A stored
string would make Python attempt `float(str)`, which raises for every
string the claims exercise; that exceptional path is `none`.  (Numeric
string literals, which Python would parse, never occur in the claims or
in the repository's call sites and are not modelled.) -/
def rfGetNum (rf : RiskFactors) (k : String) (d : ℚ) : Option ℚ :=
  match rfGet rf k with
  | some (.num q) => some q
  | some (.str _) => none
  | none => some d

/-- `d.get(k, default).upper()`-style access where the default is a string.
A stored numeric value would make Python raise `AttributeError` on
`.upper()`; that exceptional path is `none`. -/
def rfGetStr (rf : RiskFactors) (k : String) (d : String) : Option String :=
  match rfGet rf k with
  | some (.str s) => some s
  | some (.num _) => none
  | none => some d

/-- Lookup with default in a string-keyed table of rationals, i.e.
`table.get(key, default)`. -/
def tableGet (t : List (String × ℚ)) (k : String) (d : ℚ) : ℚ :=
  match (List.find? (fun p => p.1 == k) t) with
  | some p => p.2
  | none => d

/-- Lookup with default in a `PolicyType`-keyed table, i.e.
`table.get(policy_type, default)`. -/
def ptTableGet (t : List (PolicyType × ℚ)) (k : PolicyType) (d : ℚ) : ℚ :=
  match (List.find? (fun p => p.1 == k) t) with
  | some p => p.2
  | none => d

/-- Python's `str.upper()`, character by character (all categorical values
in the calculator tables and call sites are ASCII). -/
def pyUpper (s : String) : String := ⟨s.data.map Char.toUpper⟩

/-- A `datetime` date, as far as `calculate_policy_term` inspects it. -/
structure SDate where
  year : ℤ
  month : ℤ
  day : ℤ
deriving DecidableEq, Repr

/-- `end_date <= start_date` on `datetime` values: lexicographic on
(year, month, day). -/
def SDate.leb (a b : SDate) : Bool :=
  if a.year < b.year then true
  else if b.year < a.year then false
  else if a.month < b.month then true
  else if b.month < a.month then false
  else a.day ≤ b.day

namespace Calculations

/-- `PolicyCalculator.BASE_RATES` from `calculations.py`. -/
def BASE_RATES : List (PolicyType × ℚ) :=
  [(.LIFE, 0.005), (.CAR, 0.04), (.HEALTH, 0.06), (.PROPERTY, 0.02)]

/-- `PolicyCalculator.DRIVING_HISTORY_MULTIPLIERS` from `calculations.py`. -/
def DRIVING_HISTORY_MULTIPLIERS : List (String × ℚ) :=
  [("CLEAN", 1.0), ("MINOR_VIOLATIONS", 1.2), ("MAJOR_VIOLATIONS", 1.5),
   ("ACCIDENTS", 1.8)]

/-- `PolicyCalculator.PARKING_LOCATION_MULTIPLIERS` from `calculations.py`. -/
def PARKING_LOCATION_MULTIPLIERS : List (String × ℚ) :=
  [("GARAGE", 1.0), ("DRIVEWAY", 1.1), ("STREET", 1.3), ("PUBLIC_PARKING", 1.4)]

/-- `PolicyCalculator._calculate_risk_multiplier` from `calculations.py`
(lines 66–111).  The accumulator `multiplier` starts at 1.0 and each branch
multiplies into it in source order. -/
def _calculate_risk_multiplier (policy_type : PolicyType) (risk_factors : RiskFactors) :
    Option ℚ :=
  match policy_type with
  | .CAR => do
      let vehicle_age ← rfGetNum risk_factors "vehicle_age" 0
      let annual_mileage ← rfGetNum risk_factors "annual_mileage" 12000
      let m1 : ℚ := 1.0 *
        (if vehicle_age > 10 then 1.4 else if vehicle_age > 5 then 1.2 else 1)
      let m2 : ℚ := m1 *
        (if annual_mileage > 20000 then 1.3 else if annual_mileage > 15000 then 1.2 else 1)
      let driving_history ← rfGetStr risk_factors "driving_history" "CLEAN"
      let m3 := m2 * tableGet DRIVING_HISTORY_MULTIPLIERS (pyUpper driving_history) 1.0
      let parking_location ← rfGetStr risk_factors "parking_location" "GARAGE"
      pure (m3 * tableGet PARKING_LOCATION_MULTIPLIERS (pyUpper parking_location) 1.0)
  | .LIFE => do
      let age ← rfGetNum risk_factors "age" 30
      pure (1.0 * (if age > 60 then 1.5 else if age > 40 then 1.2 else 1))
  | .HEALTH => do
      let pre_conditions ← rfGetNum risk_factors "pre_conditions" 0
      pure (1.0 * (1 + 0.1 * pre_conditions))
  | .PROPERTY => do
      let location_risk ← rfGetStr risk_factors "location_risk" "LOW"
      pure (1.0 *
        tableGet [("LOW", 1.0), ("MEDIUM", 1.3), ("HIGH", 1.6)] (pyUpper location_risk) 1.0)
  | .OTHER _ => pure 1.0

/-- `PolicyCalculator.calculate_premium` from `calculations.py`
(lines 36–64): returns 0.0 on non-positive coverage or term, otherwise the
term-adjusted base premium, times the risk multiplier when the risk-factor
dictionary is non-empty, rounded to 2 decimals. -/
def calculate_premium (policy_type : PolicyType) (coverage_amount : ℚ)
    (term_months : ℤ) (risk_factors : RiskFactors) : Option ℚ :=
  if coverage_amount ≤ 0 ∨ term_months ≤ 0 then some 0.0
  else
    let base_rate := ptTableGet BASE_RATES policy_type 0.03
    let base_premium := coverage_amount * base_rate
    let term_years : ℚ := (term_months : ℚ) / 12
    let term_adjusted_premium := base_premium * term_years
    if (risk_factors : List (String × RiskValue)).isEmpty then
      some (pyRound2 term_adjusted_premium)
    else do
      let risk_multiplier ← _calculate_risk_multiplier policy_type risk_factors
      pure (pyRound2 (term_adjusted_premium * risk_multiplier))

/-- `PolicyCalculator.calculate_policy_term` from `calculations.py`
(lines 115–128).  `None` dates are the `Option.none` arguments. -/
def calculate_policy_term (start_date end_date : Option SDate) : ℤ :=
  match start_date, end_date with
  | none, _ => 0
  | _, none => 0
  | some s, some e =>
    if e.leb s then 0
    else
      let months := (e.year - s.year) * 12 + (e.month - s.month)
      let months := if e.day < s.day then months - 1 else months
      max months 1

end Calculations

namespace PolicyCalc

/-- `RiskScore` from `policy_calculator.py` (lines 9–16): base score,
confidence (constructor default 0.95), and an insertion-ordered factor
map. -/
structure RiskScore where
  base_score : ℚ
  confidence : ℚ := 0.95
  factors : List (String × ℚ) := []
deriving DecidableEq, Repr

/-- `RiskScore.add_factor`: records a named contribution (keys are distinct
at every call site, so dictionary insertion is a list append). -/
def RiskScore.add_factor (rs : RiskScore) (name : String) (value : ℚ) : RiskScore :=
  { rs with factors := rs.factors ++ [(name, value)] }

/-- `PolicyCalculator.BASE_RATES` from `policy_calculator.py`. -/
def BASE_RATES : List (PolicyType × ℚ) :=
  [(.LIFE, 0.005), (.CAR, 0.04), (.HEALTH, 0.06), (.PROPERTY, 0.02)]

/-- `PolicyCalculator._calculate_risk_multiplier` from `policy_calculator.py`
(lines 70–92).  The additive adjustments; a stored string where a number is
expected would raise `TypeError` in Python (the `Except.error` path).
The CAR branch also reads `risk_factors.get("age", 30)` into a local that
is never used; that read cannot raise and is omitted. -/
def _calculate_risk_multiplier (policy_type : PolicyType) (risk_factors : RiskFactors) :
    Except String ℚ :=
  match policy_type with
  | .CAR =>
      match rfGetNum risk_factors "base_score" 1.0 with
      | some base_score => .ok (1.0 + base_score)
      | none => .error "TypeError"
  | .LIFE =>
      match rfGetNum risk_factors "age" 30 with
      | some age => .ok (1.0 + 0.01 * age)
      | none => .error "TypeError"
  | .HEALTH =>
      match rfGetNum risk_factors "health_score" 0.5 with
      | some health_score => .ok (1.0 + health_score)
      | none => .error "TypeError"
  | .PROPERTY =>
      match rfGetNum risk_factors "location_risk" 0.5 with
      | some location_risk => .ok (1.0 + location_risk)
      | none => .error "TypeError"
  | .OTHER _ => .ok 1.0

/-- `PolicyCalculator.calculate_premium` from `policy_calculator.py`
(lines 47–68): raises `ValueError` on non-positive coverage or term,
otherwise computes the same term-adjusted, risk-multiplied, rounded
premium shape as `calculations.py` (with this file's own multiplier). -/
def calculate_premium (policy_type : PolicyType) (coverage_amount : ℚ)
    (term_months : ℤ) (risk_factors : RiskFactors) : Except String ℚ :=
  if coverage_amount ≤ 0 ∨ term_months ≤ 0 then
    .error "Coverage amount and term must be positive numbers."
  else
    let base_rate := ptTableGet BASE_RATES policy_type 0.03
    let base_premium := coverage_amount * base_rate
    let term_years : ℚ := (term_months : ℚ) / 12
    let term_adjusted_premium := base_premium * term_years
    if (risk_factors : List (String × RiskValue)).isEmpty then
      .ok (pyRound2 term_adjusted_premium)
    else do
      let multiplier ← _calculate_risk_multiplier policy_type risk_factors
      pure (pyRound2 (term_adjusted_premium * multiplier))

/-- `PolicyCalculator.calculate_car_risk_score` from `policy_calculator.py`
(lines 94–123). -/
def calculate_car_risk_score (driver_age : ℤ) (vehicle_score : ℚ)
    (accident_history : List String) (location_risk : ℚ) : RiskScore :=
  let base_score : ℚ := 0.0
  let base_score :=
    if driver_age < 25 ∨ driver_age > 70 then base_score + 0.3
    else if driver_age < 30 ∨ driver_age > 60 then base_score + 0.2
    else base_score
  let base_score := base_score + vehicle_score
  let base_score := base_score + (accident_history.length : ℚ) * 0.2
  let base_score := base_score + location_risk
  let base_score := min 1.0 base_score
  let risk_score : RiskScore := { base_score := base_score }
  let risk_score := risk_score.add_factor "age" (driver_age : ℚ)
  let risk_score := risk_score.add_factor "vehicle" vehicle_score
  let risk_score := risk_score.add_factor "accidents" (accident_history.length : ℚ)
  let risk_score := risk_score.add_factor "location" location_risk
  risk_score

/-- `PolicyCalculator.calculate_health_risk_score` from `policy_calculator.py`
(lines 125–151). -/
def calculate_health_risk_score (age : ℤ) (medical_history : List (String × ℚ))
    (lifestyle_score : ℚ) (occupation_risk : ℚ) : RiskScore :=
  let base_score : ℚ := 0.0
  let base_score := base_score + (age : ℚ) * 0.01
  let current_health := tableGet medical_history "current_health" 0.5
  let base_score := base_score + current_health
  let base_score := base_score + lifestyle_score
  let base_score := base_score + occupation_risk
  let base_score := min 1.0 (base_score / 4)
  let risk_score : RiskScore := { base_score := base_score }
  let risk_score := risk_score.add_factor "age" ((age : ℚ) * 0.01)
  let risk_score := risk_score.add_factor "medical" current_health
  let risk_score := risk_score.add_factor "lifestyle" lifestyle_score
  let risk_score := risk_score.add_factor "occupation" occupation_risk
  risk_score

/-- `PolicyCalculator.calculate_property_risk_score` from
`policy_calculator.py` (lines 153–184). -/
def calculate_property_risk_score (location_data : List (String × ℚ))
    (property_details : List (String × ℚ)) (security_score : ℚ)
    (building_age : ℤ) : RiskScore :=
  let base_score : ℚ := 0.0
  let base_score := base_score + tableGet location_data "natural_disaster" 0.0
  let base_score := base_score + tableGet location_data "crime_rate" 0.0
  let base_score := base_score + min 1.0 ((building_age : ℚ) * 0.02)
  let base_score := base_score - security_score
  let condition_score :=
    (tableGet property_details "construction_quality" 0.5 +
     tableGet property_details "maintenance" 0.5 +
     tableGet property_details "utilities_condition" 0.5) / 3
  let base_score := base_score + condition_score
  let base_score := max 0.0 (min 1.0 base_score)
  let risk_score : RiskScore := { base_score := base_score }
  let risk_score := risk_score.add_factor "location"
    ((tableGet location_data "natural_disaster" 0 +
      tableGet location_data "crime_rate" 0) / 2)
  let risk_score := risk_score.add_factor "age" (min 1.0 ((building_age : ℚ) * 0.02))
  let risk_score := risk_score.add_factor "security" security_score
  let risk_score := risk_score.add_factor "condition" condition_score
  risk_score

/-- `PolicyCalculator.calculate_life_risk_score` from `policy_calculator.py`
(lines 186–219). -/
def calculate_life_risk_score (age : ℤ) (health_score : ℚ)
    (lifestyle_factors : List (String × ℚ)) (family_history : List String) :
    RiskScore :=
  let age_factor : ℚ := 0.01 * (age : ℚ)
  let health_factor := health_score
  let lifestyle_risk := (lifestyle_factors.map Prod.snd).sum
  let family_risk : ℚ := 0.1 * (family_history.length : ℚ)
  let base_score := min 1.0 ((age_factor + health_factor + lifestyle_risk + family_risk) / 4)
  let risk_score : RiskScore := { base_score := base_score }
  let risk_score := risk_score.add_factor "age" age_factor
  let risk_score := risk_score.add_factor "health" health_factor
  let risk_score := risk_score.add_factor "lifestyle" lifestyle_risk
  let risk_score := risk_score.add_factor "family_history" family_risk
  let confidence : ℚ := 0.95
  let confidence := if lifestyle_factors.isEmpty then confidence * 0.9 else confidence
  let confidence := if family_history.isEmpty then confidence * 0.95 else confidence
  { risk_score with confidence := confidence }

/-- `PolicyCalculator.calculate_policy_term` from `policy_calculator.py`
(lines 221–233); identical to the `calculations.py` version. -/
def calculate_policy_term (start_date end_date : Option SDate) : ℤ :=
  match start_date, end_date with
  | none, _ => 0
  | _, none => 0
  | some s, some e =>
    if e.leb s then 0
    else
      let months := (e.year - s.year) * 12 + (e.month - s.month)
      let months := if e.day < s.day then months - 1 else months
      max months 1

end PolicyCalc

/-- With positive coverage and term and an empty risk-factor dictionary,
`calculations.py`'s premium is the rounded term-adjusted base premium. -/
lemma Calculations.calculate_premium_empty (T : PolicyType) (C : ℚ) (M : ℤ)
    (hC : 0 < C) (hM : 0 < M) :
    Calculations.calculate_premium T C M [] =
      some (pyRound2 (C * ptTableGet Calculations.BASE_RATES T 0.03 * ((M : ℚ) / 12))) := by
  unfold Calculations.calculate_premium
  rw [if_neg]
  · rfl
  · push_neg
    exact ⟨hC, hM⟩

/-- The `calculations.py` base-rate lookup, case by case. -/
lemma Calculations.base_rate_cases (T : PolicyType) :
    ptTableGet Calculations.BASE_RATES T 0.03 =
      (match T with
       | .LIFE => 0.005
       | .CAR => 0.04
       | .HEALTH => 0.06
       | .PROPERTY => 0.02
       | .OTHER _ => 0.03) := by
  cases T <;> rfl

/-- C1: for every policy type `T`, coverage `C > 0` and term `M > 0`,
`calculate_premium(T, C, M, {})` in `calculations.py` returns
`round(C * base_rate(T) * M/12, 2)` without raising, where `base_rate` is
0.005 for LIFE, 0.04 for CAR, 0.06 for HEALTH, 0.02 for PROPERTY and 0.03
for any unrecognized policy type. -/
theorem claim_C1 (T : PolicyType) (C : ℚ) (M : ℤ) (hC : 0 < C) (hM : 0 < M) :
    Calculations.calculate_premium T C M [] =
      some (pyRound2 (C *
        (match T with
         | .LIFE => 0.005
         | .CAR => 0.04
         | .HEALTH => 0.06
         | .PROPERTY => 0.02
         | .OTHER _ => 0.03) * ((M : ℚ) / 12))) := by
  rw [Calculations.calculate_premium_empty T C M hC hM, Calculations.base_rate_cases]

/-- Witness for C1: an unrecognized policy type ("BOAT") with coverage 1000
and term 12 months yields the default 3% rate and no error. -/
theorem claim_C1_witness :
    Calculations.calculate_premium (.OTHER "BOAT") 1000 12 [] =
      some (pyRound2 (1000 * 0.03 * (((12 : ℤ) : ℚ) / 12))) :=
  claim_C1 (.OTHER "BOAT") 1000 12 (by norm_num) (by norm_num)

/-- C2: on non-positive coverage or term, for every policy type and every
risk-factor mapping, the `calculations.py` variant of `calculate_premium`
returns 0.0 without raising, while the `policy_calculator.py` variant
raises `ValueError` instead of returning a value. -/
theorem claim_C2 (T : PolicyType) (C : ℚ) (M : ℤ) (rf : RiskFactors)
    (h : C ≤ 0 ∨ M ≤ 0) :
    Calculations.calculate_premium T C M rf = some 0 ∧
    PolicyCalc.calculate_premium T C M rf =
      Except.error "Coverage amount and term must be positive numbers." := by
  constructor
  · unfold Calculations.calculate_premium
    rw [if_pos h]
    norm_num
  · unfold PolicyCalc.calculate_premium
    rw [if_pos h]

/-- Witness for C2: negative coverage with a CAR policy. -/
theorem claim_C2_witness :
    Calculations.calculate_premium .CAR (-5) 12 [] = some 0 ∧
    PolicyCalc.calculate_premium .CAR (-5) 12 [] =
      Except.error "Coverage amount and term must be positive numbers." :=
  claim_C2 .CAR (-5) 12 [] (Or.inl (by norm_num))

/-- C3: a LIFE policy with coverage 100000, term 12 months and risk factors
`{"age": 65}` is priced at exactly 750.00 (base 500, term factor 1, risk
multiplier 1.5 because age > 60); in general the LIFE multiplier is 1.5 for
age > 60, 1.2 for 40 < age ≤ 60 and 1.0 otherwise. -/
theorem claim_C3 :
    Calculations.calculate_premium .LIFE 100000 12 [("age", .num 65)] = some 750 ∧
    (∀ a : ℚ, Calculations._calculate_risk_multiplier .LIFE [("age", .num a)] =
      some (if a > 60 then 1.5 else if a > 40 then 1.2 else 1)) := by
  constructor
  · norm_num [Calculations.calculate_premium, Calculations._calculate_risk_multiplier,
      rfGetNum, rfGet, Calculations.BASE_RATES, ptTableGet, List.find?,
      pyRound2, roundHalfEven]
  · intro a
    norm_num [Calculations._calculate_risk_multiplier, rfGetNum, rfGet, List.find?]

/-- C4: the CAR risk multiplier is the product of a vehicle-age bracket
factor, a mileage bracket factor, a case-insensitive driving-history lookup
and a case-insensitive parking-location lookup; for vehicle_age 12, mileage
25000, "ACCIDENTS" and "STREET" it is 1.4 * 1.3 * 1.8 * 1.3 = 4.2588. -/
theorem claim_C4 :
    (∀ (va am : ℚ) (dh pl : String),
      Calculations._calculate_risk_multiplier .CAR
        [("vehicle_age", .num va), ("annual_mileage", .num am),
         ("driving_history", .str dh), ("parking_location", .str pl)] =
      some ((if va > 10 then 1.4 else if va > 5 then 1.2 else 1) *
            (if am > 20000 then 1.3 else if am > 15000 then 1.2 else 1) *
            tableGet Calculations.DRIVING_HISTORY_MULTIPLIERS (pyUpper dh) 1.0 *
            tableGet Calculations.PARKING_LOCATION_MULTIPLIERS (pyUpper pl) 1.0)) ∧
    Calculations._calculate_risk_multiplier .CAR
        [("vehicle_age", .num 12), ("annual_mileage", .num 25000),
         ("driving_history", .str "ACCIDENTS"), ("parking_location", .str "STREET")] =
      some (1.4 * 1.3 * 1.8 * 1.3) ∧
    (1.4 * 1.3 * 1.8 * 1.3 : ℚ) = 4.2588 := by
  refine ⟨?_, ?_, by norm_num⟩
  · intro va am dh pl
    simp [Calculations._calculate_risk_multiplier, rfGetNum, rfGetStr, rfGet,
      List.find?]
    split_ifs <;> norm_num
  · have hdh : pyUpper "ACCIDENTS" = "ACCIDENTS" := by decide
    have hpl : pyUpper "STREET" = "STREET" := by decide
    simp [Calculations._calculate_risk_multiplier, rfGetNum, rfGetStr, rfGet,
      List.find?, hdh, hpl, tableGet, Calculations.DRIVING_HISTORY_MULTIPLIERS,
      Calculations.PARKING_LOCATION_MULTIPLIERS]
    norm_num

/-- C5: `calculate_policy_term` returns 0 when a date is missing or the end
is not after the start, and otherwise `max 1 d` where `d` is the whole-month
difference decremented when the end day is before the start day; in
particular 2024-01-15 → 2025-01-10 gives 11 and 2024-01-01 → 2025-01-01
gives 12 (and the two copies in `calculations.py` and `policy_calculator.py`
agree on all inputs). -/
theorem claim_C5 :
    (∀ d, Calculations.calculate_policy_term none d = 0) ∧
    (∀ d, Calculations.calculate_policy_term d none = 0) ∧
    (∀ s e : SDate, Calculations.calculate_policy_term (some s) (some e) =
      if e.leb s then 0
      else max 1 ((e.year - s.year) * 12 + (e.month - s.month) -
                  (if e.day < s.day then 1 else 0))) ∧
    Calculations.calculate_policy_term (some ⟨2024, 1, 15⟩) (some ⟨2025, 1, 10⟩) = 11 ∧
    Calculations.calculate_policy_term (some ⟨2024, 1, 1⟩) (some ⟨2025, 1, 1⟩) = 12 ∧
    (∀ sd ed, Calculations.calculate_policy_term sd ed =
      PolicyCalc.calculate_policy_term sd ed) := by
  refine ⟨?_, ?_, ?_, by decide, by decide, ?_⟩
  · intro d
    cases d <;> rfl
  · intro d
    cases d <;> rfl
  · intro s e
    simp only [Calculations.calculate_policy_term, SDate.leb]
    split_ifs <;> omega
  · intro sd ed
    cases sd <;> cases ed <;> rfl

/-- C6: the life risk score's confidence is 0.95 with both optional inputs
non-empty, discounted by 0.9 when `lifestyle_factors` is empty and by 0.95
when `family_history` is empty, the two discounts being independent and
multiplicative; with both empty it is exactly 0.95 * 0.9 * 0.95 = 0.81225. -/
theorem claim_C6 :
    (∀ (age : ℤ) (hs : ℚ) (lf : List (String × ℚ)) (fh : List String),
      (PolicyCalc.calculate_life_risk_score age hs lf fh).confidence =
        0.95 * (if lf.isEmpty then 0.9 else 1) * (if fh.isEmpty then 0.95 else 1)) ∧
    (∀ (age : ℤ) (hs : ℚ),
      (PolicyCalc.calculate_life_risk_score age hs [] []).confidence = 0.81225) ∧
    ((0.95 * 0.9 * 0.95 : ℚ) = 0.81225) := by
  have key : ∀ (age : ℤ) (hs : ℚ) (lf : List (String × ℚ)) (fh : List String),
      (PolicyCalc.calculate_life_risk_score age hs lf fh).confidence =
        0.95 * (if lf.isEmpty then 0.9 else 1) * (if fh.isEmpty then 0.95 else 1) := by
    intro age hs lf fh
    simp only [PolicyCalc.calculate_life_risk_score, PolicyCalc.RiskScore.add_factor]
    split_ifs <;> norm_num
  refine ⟨key, ?_, by norm_num⟩
  intro age hs
  rw [key]
  norm_num

/-- C7: the car risk base score is always at most 1.0 and equals the clamp
of an age-bracket contribution (0.3 outside [25,70], else 0.2 outside
[30,60], never both) plus vehicle score, 0.2 per accident, and location
risk; driver_age 80, vehicle_score 0.9, three accidents and location risk
0.9 give exactly 1.0. -/
theorem claim_C7 :
    (∀ (da : ℤ) (vs : ℚ) (ah : List String) (lr : ℚ),
      (PolicyCalc.calculate_car_risk_score da vs ah lr).base_score ≤ 1) ∧
    (∀ (da : ℤ) (vs : ℚ) (ah : List String) (lr : ℚ),
      (PolicyCalc.calculate_car_risk_score da vs ah lr).base_score =
        min 1 ((if da < 25 ∨ da > 70 then (0.3 : ℚ)
                else if da < 30 ∨ da > 60 then 0.2 else 0) +
               vs + 0.2 * (ah.length : ℚ) + lr)) ∧
    (PolicyCalc.calculate_car_risk_score 80 0.9 ["a", "b", "c"] 0.9).base_score = 1 := by
  have key : ∀ (da : ℤ) (vs : ℚ) (ah : List String) (lr : ℚ),
      (PolicyCalc.calculate_car_risk_score da vs ah lr).base_score =
        min 1 ((if da < 25 ∨ da > 70 then (0.3 : ℚ)
                else if da < 30 ∨ da > 60 then 0.2 else 0) +
               vs + 0.2 * (ah.length : ℚ) + lr) := by
    intro da vs ah lr
    simp only [PolicyCalc.calculate_car_risk_score, PolicyCalc.RiskScore.add_factor]
    split_ifs <;> · norm_num; ring_nf
  refine ⟨?_, key, ?_⟩
  · intro da vs ah lr
    rw [key]
    exact min_le_left _ _
  · rw [key]
    norm_num

/-- C8: the property risk base score is the natural-disaster rate plus the
crime rate plus `min 1 (0.02 * building_age)` minus the security score plus
the average of the three condition fields (each defaulting to 0.5), clamped
into [0, 1]. -/
theorem claim_C8 :
    ∀ (ld pd : List (String × ℚ)) (ss : ℚ) (ba : ℤ),
      (PolicyCalc.calculate_property_risk_score ld pd ss ba).base_score =
        max 0 (min 1
          (tableGet ld "natural_disaster" 0 + tableGet ld "crime_rate" 0 +
           min 1 (0.02 * (ba : ℚ)) - ss +
           (tableGet pd "construction_quality" 0.5 + tableGet pd "maintenance" 0.5 +
            tableGet pd "utilities_condition" 0.5) / 3)) := by
  intro ld pd ss ba
  simp only [PolicyCalc.calculate_property_risk_score, PolicyCalc.RiskScore.add_factor]
  norm_num
  congr 1
  congr 1
  ring_nf

lemma roundHalfEven_of_lt (q : ℚ) (h : q - ⌊q⌋ < 1/2) : roundHalfEven q = ⌊q⌋ := by
  unfold roundHalfEven
  rw [if_pos h]

lemma roundHalfEven_of_gt (q : ℚ) (h : 1/2 < q - ⌊q⌋) : roundHalfEven q = ⌊q⌋ + 1 := by
  unfold roundHalfEven
  rw [if_neg (by linarith), if_pos h]

lemma roundHalfEven_of_eq_even (q : ℚ) (h : q - ⌊q⌋ = 1/2) (hp : ⌊q⌋ % 2 = 0) :
    roundHalfEven q = ⌊q⌋ := by
  unfold roundHalfEven
  rw [if_neg (by linarith), if_neg (by linarith), if_pos hp]

lemma roundHalfEven_of_eq_odd (q : ℚ) (h : q - ⌊q⌋ = 1/2) (hp : ⌊q⌋ % 2 ≠ 0) :
    roundHalfEven q = ⌊q⌋ + 1 := by
  unfold roundHalfEven
  rw [if_neg (by linarith), if_neg (by linarith), if_neg hp]

/-- Doubling the argument moves the half-even integer rounding by at most
one unit relative to doubling the rounded value. -/
lemma roundHalfEven_two_mul (y : ℚ) :
    |(roundHalfEven (2 * y) : ℚ) - 2 * (roundHalfEven y : ℚ)| ≤ 1 := by
  have hfl : ((⌊y⌋ : ℚ)) ≤ y := Int.floor_le y
  have hfu : y < ⌊y⌋ + 1 := Int.lt_floor_add_one y
  set n : ℤ := ⌊y⌋ with hn
  rcases lt_trichotomy (y - n) (1/2) with hc | hc | hc
  · -- fractional part below one half: the doubled value floors to 2n
    have hf2 : ⌊2 * y⌋ = 2 * n := by
      rw [Int.floor_eq_iff]
      constructor
      · push_cast
        linarith
      · push_cast
        linarith
    have h1 : roundHalfEven y = n := roundHalfEven_of_lt y hc
    rcases lt_trichotomy (2 * y - (2 * n : ℤ)) (1/2) with hd | hd | hd
    · have h2 : roundHalfEven (2 * y) = 2 * n := by
        have := roundHalfEven_of_lt (2 * y) (by rw [hf2]; exact_mod_cast hd)
        rw [this, hf2]
      rw [h1, h2]
      push_cast
      rw [abs_le]
      constructor <;> linarith
    · have h2 : roundHalfEven (2 * y) = 2 * n := by
        have := roundHalfEven_of_eq_even (2 * y)
          (by rw [hf2]; exact_mod_cast hd) (by rw [hf2]; omega)
        rw [this, hf2]
      rw [h1, h2]
      push_cast
      rw [abs_le]
      constructor <;> linarith
    · have h2 : roundHalfEven (2 * y) = 2 * n + 1 := by
        have := roundHalfEven_of_gt (2 * y) (by rw [hf2]; exact_mod_cast hd)
        rw [this, hf2]
      rw [h1, h2]
      push_cast
      rw [abs_le]
      constructor <;> linarith
  · -- fractional part exactly one half: the doubled value is the odd
    -- integer 2n + 1 and rounds to itself; the tie in `y` breaks by parity
    have h2y : 2 * y = ((2 * n + 1 : ℤ) : ℚ) := by
      push_cast
      linarith
    have hf2 : ⌊2 * y⌋ = 2 * n + 1 := by
      rw [h2y, Int.floor_intCast]
    have h2 : roundHalfEven (2 * y) = 2 * n + 1 := by
      have := roundHalfEven_of_lt (2 * y) (by rw [hf2, h2y]; norm_num)
      rw [this, hf2]
    by_cases hp : n % 2 = 0
    · have h1 : roundHalfEven y = n := roundHalfEven_of_eq_even y hc hp
      rw [h1, h2]
      push_cast
      rw [abs_le]
      constructor <;> linarith
    · have h1 : roundHalfEven y = n + 1 := roundHalfEven_of_eq_odd y hc hp
      rw [h1, h2]
      push_cast
      rw [abs_le]
      constructor <;> linarith
  · -- fractional part above one half: the doubled value floors to 2n + 1
    have hf2 : ⌊2 * y⌋ = 2 * n + 1 := by
      rw [Int.floor_eq_iff]
      constructor
      · push_cast
        linarith
      · push_cast
        linarith
    have h1 : roundHalfEven y = n + 1 := roundHalfEven_of_gt y hc
    rcases lt_trichotomy (2 * y - ((2 * n + 1 : ℤ) : ℚ)) (1/2) with hd | hd | hd
    · have h2 : roundHalfEven (2 * y) = 2 * n + 1 := by
        have := roundHalfEven_of_lt (2 * y) (by rw [hf2]; exact_mod_cast hd)
        rw [this, hf2]
      rw [h1, h2]
      push_cast
      rw [abs_le]
      constructor <;> linarith
    · have h2 : roundHalfEven (2 * y) = 2 * n + 2 := by
        have := roundHalfEven_of_eq_odd (2 * y)
          (by rw [hf2]; exact_mod_cast hd) (by rw [hf2]; omega)
        rw [this, hf2]
        ring
      rw [h1, h2]
      push_cast
      rw [abs_le]
      constructor <;> linarith
    · have h2 : roundHalfEven (2 * y) = 2 * n + 2 := by
        have := roundHalfEven_of_gt (2 * y) (by rw [hf2]; exact_mod_cast hd)
        rw [this, hf2]
        ring
      rw [h1, h2]
      push_cast
      rw [abs_le]
      constructor <;> linarith

/-- Two-decimal half-even rounding commutes with doubling up to one cent. -/
lemma pyRound2_two_mul (x : ℚ) : |pyRound2 (2 * x) - 2 * pyRound2 x| ≤ 1/100 := by
  unfold pyRound2
  have harg : 2 * x * 100 = 2 * (x * 100) := by ring
  rw [harg]
  have h := roundHalfEven_two_mul (x * 100)
  have heq : (roundHalfEven (2 * (x * 100)) : ℚ) / 100 -
      2 * ((roundHalfEven (x * 100) : ℚ) / 100) =
      ((roundHalfEven (2 * (x * 100)) : ℚ) - 2 * (roundHalfEven (x * 100) : ℚ)) / 100 := by
    ring
  rw [heq, abs_div, abs_of_nonneg (by norm_num : (0:ℚ) ≤ 100)]
  linarith

/-- C9: with an empty risk-factor mapping and positive coverage and term,
doubling the term changes the premium by at most 0.01 relative to doubling
the premium — the premium scales linearly in the term up to one unit of the
2-decimal rounding. -/
theorem claim_C9 (T : PolicyType) (C : ℚ) (M : ℤ) (hC : 0 < C) (hM : 0 < M) :
    ∃ p q : ℚ,
      Calculations.calculate_premium T C (2 * M) [] = some p ∧
      Calculations.calculate_premium T C M [] = some q ∧
      |p - 2 * q| ≤ 0.01 := by
  refine ⟨_, _, Calculations.calculate_premium_empty T C (2 * M) hC (by omega),
    Calculations.calculate_premium_empty T C M hC hM, ?_⟩
  have harg : C * ptTableGet Calculations.BASE_RATES T 0.03 * (((2 * M : ℤ) : ℚ) / 12) =
      2 * (C * ptTableGet Calculations.BASE_RATES T 0.03 * ((M : ℚ) / 12)) := by
    push_cast
    ring
  rw [harg]
  have := pyRound2_two_mul (C * ptTableGet Calculations.BASE_RATES T 0.03 * ((M : ℚ) / 12))
  norm_num at this ⊢
  exact this

/-- Witness for C9: LIFE coverage 100, term 6 months doubled to 12; the two
premiums are 0.25 and 0.50 and differ from exact doubling by 0. -/
theorem claim_C9_witness :
    Calculations.calculate_premium .LIFE 100 (2 * 6) [] = some 0.5 ∧
    Calculations.calculate_premium .LIFE 100 6 [] = some 0.25 ∧
    |(0.5 : ℚ) - 2 * 0.25| ≤ 0.01 := by
  obtain ⟨p, q, hp, hq, hle⟩ := claim_C9 .LIFE 100 6 (by norm_num) (by norm_num)
  have e1 : Calculations.calculate_premium .LIFE 100 (2 * 6) [] = some 0.5 := by
    norm_num [Calculations.calculate_premium, Calculations.BASE_RATES, ptTableGet,
      List.find?, pyRound2, roundHalfEven]
  have e2 : Calculations.calculate_premium .LIFE 100 6 [] = some 0.25 := by
    norm_num [Calculations.calculate_premium, Calculations.BASE_RATES, ptTableGet,
      List.find?, pyRound2, roundHalfEven]
  have hp2 : p = 0.5 := Option.some.inj ((hp.symm.trans e1))
  have hq2 : q = 0.25 := Option.some.inj ((hq.symm.trans e2))
  rw [hp2, hq2] at hle
  exact ⟨e1, e2, hle⟩

/-- C10: the car, health and property risk scorers always return the
`RiskScore` constructor's default confidence 0.95; only the life scorer can
return a different confidence (0.81225 with both optional inputs empty). -/
theorem claim_C10 :
    (∀ (da : ℤ) (vs : ℚ) (ah : List String) (lr : ℚ),
      (PolicyCalc.calculate_car_risk_score da vs ah lr).confidence = 0.95) ∧
    (∀ (age : ℤ) (mh : List (String × ℚ)) (ls oc : ℚ),
      (PolicyCalc.calculate_health_risk_score age mh ls oc).confidence = 0.95) ∧
    (∀ (ld pd : List (String × ℚ)) (ss : ℚ) (ba : ℤ),
      (PolicyCalc.calculate_property_risk_score ld pd ss ba).confidence = 0.95) ∧
    (PolicyCalc.calculate_life_risk_score 30 0.5 [] []).confidence ≠ 0.95 := by
  refine ⟨?_, ?_, ?_, ?_⟩
  · intro da vs ah lr
    simp [PolicyCalc.calculate_car_risk_score, PolicyCalc.RiskScore.add_factor]
  · intro age mh ls oc
    simp [PolicyCalc.calculate_health_risk_score, PolicyCalc.RiskScore.add_factor]
  · intro ld pd ss ba
    simp [PolicyCalc.calculate_property_risk_score, PolicyCalc.RiskScore.add_factor]
  · simp [PolicyCalc.calculate_life_risk_score, PolicyCalc.RiskScore.add_factor]
    norm_num

/-- Witness for C10: the car scorer at a concrete input has confidence
0.95. -/
theorem claim_C10_witness :
    (PolicyCalc.calculate_car_risk_score 30 0.5 [] 0.3).confidence = 0.95 :=
  claim_C10.1 30 0.5 [] 0.3
